import Mathlib

/-!
Verification development for the telemetry ingestion and anomaly detection
pipeline of the central-brain service (`src/central-brain/src/main.py`).

The Python code is shallowly embedded as executable Lean definitions:

* Python floats are modelled as rationals.  The literal `0.6745` of the
  detector is modelled as `6745/10000`; the claims settled here are decided
  far from the comparison boundaries, so the tiny difference between the
  binary float and this rational never changes a comparison outcome.
* Python dicts with string keys are modelled as association lists together
  with a first-match lookup and an overwrite-aware insert.
* Raising an exception is modelled with `Except Unit`; Python `try/except`
  blocks become matches on the `Except` value.
* External collaborators (base64, gzip, protobuf parsing, the DynamoDB
  client) are a record of functions (`ExtDeps`) supplied to the handler, and the
  side effects the handler performs (store writes, alert dispatches, scans)
  are collected in an `Effects` record which the embedding returns next to
  the HTTP response.
-/

/-- First-match lookup in an association list: model of Python `dict.get(k)`
(dict keys are unique, so first-match agrees with dict lookup). -/
def lookupStr (l : List (String × String)) (k : String) : Option String :=
  match l with
  | [] => none
  | (k0, v) :: rest => if k0 = k then some v else lookupStr rest k

/-- Model of Python `dict.get(k, default)`. -/
def getAttr (l : List (String × String)) (k default : String) : String :=
  (lookupStr l k).getD default

/-- Model of Python `dict[k] = v`: overwrite in place when the key exists,
append otherwise (insertion order is preserved, as for Python dicts). -/
def dictSet (l : List (String × String)) (k v : String) : List (String × String) :=
  if (lookupStr l k).isSome then l.map (fun p => if p.1 = k then (k, v) else p)
  else l ++ [(k, v)]

/-- Model of a Python dict comprehension over key/value pairs: later
occurrences of a key overwrite earlier ones. -/
def dictOf (l : List (String × String)) : List (String × String) :=
  l.foldl (fun acc p => dictSet acc p.1 p.2) []

/-- Substring test on character lists, used to model the Python operator
`t in s` on strings. -/
def charsContain : List Char → List Char → Bool
  | t, [] => t.isEmpty
  | t, c :: rest => t.isPrefixOf (c :: rest) || charsContain t rest

/-- Model of Python `t in s` for strings. -/
def strIn (t s : String) : Bool := charsContain t.toList s.toList

/-- Suffix test on character lists: `t` is a suffix of `s` iff `t` equals
`s` or is a suffix of the tail of `s`. -/
def charsSuffix : List Char → List Char → Bool
  | t, [] => t.isEmpty
  | t, c :: rest => if t = c :: rest then true else charsSuffix t rest

/-- Model of Python `s.endswith(suffix)`. -/
def pyEndsWith (s suffix : String) : Bool := charsSuffix suffix.toList s.toList

/-- Model of Python `abs` on numbers. -/
def pyAbs (q : ℚ) : ℚ := if q < 0 then -q else q

/-- Bytes of a request body.  Byte strings are modelled as lists of
naturals; `encodeUtf8` models Python `str.encode("utf-8")` at code-point
granularity, which preserves emptiness and distinctness for the ASCII
payloads the handler routes on. -/
def encodeUtf8 (s : String) : List ℕ := s.data.map Char.toNat

def exceptToSum {ε α : Type} : Except ε α → Sum ε α
  | .error e => .inl e
  | .ok a => .inr a

instance {ε α : Type} [DecidableEq ε] [DecidableEq α] : DecidableEq (Except ε α) :=
  fun x y =>
    decidable_of_iff (exceptToSum x = exceptToSum y)
      (by cases x <;> cases y <;> simp [exceptToSum])

/-- The canonical metric sample: Python dataclass `Metric` with
`metric : Dict[str, str]` (here `labels`) and `value = [timestamp, str(v)]`.
The second slot of `value` is a string; the detector and the storage writer
convert it with `float` / `Decimal`, which can raise.  `rawValue` models the
outcome of that conversion: `some q` when the string denotes the number `q`,
`none` when conversion raises. -/
structure Metric where
  labels : List (String × String)
  timestamp : ℚ
  rawValue : Option ℚ
deriving DecidableEq

/-- Python dataclass `Anomaly`.  The source field `instance` is a reserved
word in Lean and is embedded as `instanceLabel`. -/
structure Anomaly where
  metric_name : String
  instanceLabel : String
  job : String
  value : ℚ
  timestamp : ℚ
  reason : String
deriving DecidableEq

/-- The sort inside `statistics.median`: the library sorts its data; the sort is embedded as an insertion
sort (any sort computes the same sorted list). -/
def insertSorted (x : ℚ) : List ℚ → List ℚ
  | [] => [x]
  | y :: ys => if x ≤ y then x :: y :: ys else y :: insertSorted x ys

def sortRat (l : List ℚ) : List ℚ := l.foldr insertSorted []

/-- Model of `statistics.median`: middle element for odd length, mean of the
two middle elements for even length.  (The Python function raises on an
empty list; the detector only calls it on lists of length at least 3.) -/
def median (l : List ℚ) : ℚ :=
  let s := sortRat l
  let n := s.length
  if n % 2 = 1 then s.getD (n / 2) 0
  else (s.getD (n / 2 - 1) 0 + s.getD (n / 2) 0) / 2

/-- Model of `float(m.value[1])`: returns the number or raises. -/
def floatOfValue (m : Metric) : Except Unit ℚ :=
  match m.rawValue with
  | some v => Except.ok v
  | none => Except.error ()

/-- The list comprehension `[float(m.value[1]) for m in metric_group]`:
the first failing conversion raises. -/
def expectValues : List Metric → Except Unit (List ℚ)
  | [] => Except.ok []
  | m :: rest =>
    match floatOfValue m with
    | .error e => .error e
    | .ok v =>
      match expectValues rest with
      | .error e => .error e
      | .ok vs => .ok (v :: vs)

/-- The reason f-string of the source.  The Python code formats the value and
the score with two decimals; the embedding keeps the same components in the
same sentence (no claim inspects this string). -/
def mkReason (val z threshold : ℚ) : String :=
  "Value " ++ toString val ++ " has a Modified Z-score of " ++ toString z ++
    ", which is above the threshold of " ++ toString threshold

def metricNameOf (m : Metric) : String := getAttr m.labels "__name__" "unknown"

/-- The modified z-score line of the source:
`0.6745 * (val - median) / mad if mad else 0.0`.  (`0.6745` is embedded as
the rational `6745/10000`.) -/
def zScore (val med mad : ℚ) : ℚ :=
  if mad = 0 then 0 else (6745/10000) * (val - med) / mad

/-- The per-sample flagging loop of `detect_anomalies`: recompute the value
(its conversion already succeeded for this group), compute the modified
z-score, and emit an `Anomaly` when its absolute value exceeds the
threshold. -/
def flagLoop (name : String) (med mad threshold : ℚ) : List Metric → List Anomaly
  | [] => []
  | m :: rest =>
    if threshold < pyAbs (zScore (m.rawValue.getD 0) med mad) then
      { metric_name := name,
        instanceLabel := getAttr m.labels "instance" "unknown",
        job := getAttr m.labels "job" "unknown",
        value := m.rawValue.getD 0,
        timestamp := m.timestamp,
        reason := mkReason (m.rawValue.getD 0) (zScore (m.rawValue.getD 0) med mad) threshold }
        :: flagLoop name med mad threshold rest
    else flagLoop name med mad threshold rest

/-- The `deviations`/`mad` locals of the source: the median absolute
deviation of a list of values. -/
def madOf (values : List ℚ) : ℚ :=
  median (values.map (fun v => pyAbs (v - median values)))

/-- One iteration of the per-group loop of `detect_anomalies`: skip counter
metrics named `*_total`, convert the values (which can raise), skip groups of
fewer than 3 points, compute median and MAD, skip when the MAD is zero, and
otherwise flag outliers.  (The source binds `median` and `mad` to locals; the
embedding names them through `median` and `madOf`.) -/
def detectGroup (name : String) (g : List Metric) (threshold : ℚ) :
    Except Unit (List Anomaly) :=
  if pyEndsWith name "_total" then Except.ok []
  else
    match expectValues g with
    | .error e => .error e
    | .ok values =>
      if values.length < 3 then Except.ok []
      else if madOf values = 0 then Except.ok []
      else Except.ok (flagLoop name (median values) (madOf values) threshold g)

/-- The groups are visited in dict insertion order and the flagged anomalies
are accumulated in one list; an exception in any group propagates out of the
whole call, discarding everything collected so far. -/
def detectGroups (threshold : ℚ) :
    List (String × List Metric) → Except Unit (List Anomaly)
  | [] => Except.ok []
  | (name, g) :: rest =>
    match detectGroup name g threshold with
    | .error e => .error e
    | .ok as =>
      match detectGroups threshold rest with
      | .error e => .error e
      | .ok more => .ok (as ++ more)

/-- Key order of the Python grouping dict: first occurrence order. -/
def firstOccurrences (l : List String) : List String :=
  l.foldl (fun acc n => if n ∈ acc then acc else acc ++ [n]) []

/-- All samples of the batch that carry the given metric name, in batch
order: the value a grouping-dict entry holds. -/
def groupOf (n : String) (metrics : List Metric) : List Metric :=
  metrics.filter (fun m => metricNameOf m == n)

/-- The grouping loop of `detect_anomalies`: a dict from metric name to the
samples bearing it, in insertion order. -/
def groupsByName (metrics : List Metric) : List (String × List Metric) :=
  (firstOccurrences (metrics.map metricNameOf)).map (fun n => (n, groupOf n metrics))

/-- Model of `detect_anomalies(metrics, threshold=3.5)`.  The `Except` layer carries a
possible exception out of the group loop (the source has no handler for it). -/
def detect_anomalies (metrics : List Metric) (threshold : ℚ) :
    Except Unit (List Anomaly) :=
  detectGroups threshold (groupsByName metrics)

/-- The values of a group as the detector reads them, with a placeholder for
samples whose conversion would raise (such samples make the detector raise
before these values are used). -/
def valuesD (g : List Metric) : List ℚ := g.map (fun m => m.rawValue.getD 0)

/-- The median absolute deviation the detector computes for a group. -/
def groupMad (g : List Metric) : ℚ := madOf (valuesD g)

/-- The `oneof value` of an OTLP NumberDataPoint: `as_double` or `as_int`. -/
inductive PointValue
  | asDouble (v : ℚ)
  | asInt (v : ℤ)
deriving DecidableEq

structure NumberDataPoint where
  attributes : List (String × String)
  time_unix_nano : ℕ
  value : PointValue
deriving DecidableEq

structure HistogramDataPoint where
  count : ℕ
deriving DecidableEq

structure ExpHistogramDataPoint where
  count : ℕ
deriving DecidableEq

structure SummaryDataPoint where
  count : ℕ
deriving DecidableEq

/-- The `oneof data` of an OTLP Metric message.  Only `gauge` and `sum` carry
number data points the parser reads; the remaining arms are carried so that
their (ignored) payloads exist in the model. -/
inductive MetricData
  | gauge (data_points : List NumberDataPoint)
  | sum (data_points : List NumberDataPoint)
  | histogram (data_points : List HistogramDataPoint)
  | exponentialHistogram (data_points : List ExpHistogramDataPoint)
  | summary (data_points : List SummaryDataPoint)
  | unset
deriving DecidableEq

structure MetricProto where
  name : String
  data : MetricData
deriving DecidableEq

structure ScopeMetrics where
  metrics : List MetricProto
deriving DecidableEq

structure ResourceMetrics where
  resource_attributes : List (String × String)
  scope_metrics : List ScopeMetrics
deriving DecidableEq

structure MetricsReq where
  resource_metrics : List ResourceMetrics
deriving DecidableEq

/-- The `data_points` selection of `_parse_otlp_metrics`: gauge or sum points,
empty for every other metric data type. -/
def dataPointsOf (mp : MetricProto) : List NumberDataPoint :=
  match mp.data with
  | .gauge dps => dps
  | .sum dps => dps
  | _ => []

/-- Model of `dp.as_double if dp.HasField("as_double") else dp.as_int`. -/
def pointValueOf (dp : NumberDataPoint) : ℚ :=
  match dp.value with
  | .asDouble v => v
  | .asInt n => (n : ℚ)

/-- One canonical sample built by `_parse_otlp_metrics` for a data point:
name/job/instance base labels, data point attributes written on top
(dict assignment overwrites), nanosecond timestamp divided to seconds, and
the stringified value (its numeric reading is `some (pointValueOf dp)`). -/
def sampleOfDataPoint (name job instanceLabel : String) (dp : NumberDataPoint) : Metric :=
  { labels := dp.attributes.foldl (fun acc p => dictSet acc p.1 p.2)
      [("__name__", name), ("job", job), ("instance", instanceLabel)],
    timestamp := (dp.time_unix_nano : ℚ) / 1000000000,
    rawValue := some (pointValueOf dp) }

/-- Model of `_parse_otlp_metrics`: the triple nested loop over
resource_metrics → scope_metrics → metrics, reading job and instance from the
resource attributes. -/
def parse_otlp_metrics (req : MetricsReq) : List Metric :=
  req.resource_metrics.flatMap (fun rm =>
    rm.scope_metrics.flatMap (fun sm =>
      sm.metrics.flatMap (fun mp =>
        let attributes := dictOf rm.resource_attributes
        let job := getAttr attributes "service.name" "unknown_job"
        let instanceLabel := getAttr attributes "service.instance.id" "unknown_instance"
        (dataPointsOf mp).map (sampleOfDataPoint mp.name job instanceLabel))))

/-- The item written to the metrics table. `full_metric` is
`convert_floats_to_decimals(metric.metric)`, the identity on a dict of
strings.  `timestamp` and `value` are the Decimal conversions of the two
value slots. -/
structure MetricItem where
  cluster_id : String
  metric_identifier : String
  metric_name : String
  job : String
  instanceLabel : String
  timestamp : ℚ
  value : ℚ
  ttl : ℕ
  full_metric : List (String × String)
deriving DecidableEq

/-- The storage identifier of the source:
`f"{metric_name}#{instance}#{timestamp}#{i}"` where `i` is the position of
the record in its batch.  (The textual rendering of the timestamp differs
from Python float formatting; the claims only concern equality and
distinctness of identifiers.) -/
def metricIdentifier (m : Metric) (i : ℕ) : String :=
  metricNameOf m ++ "#" ++ getAttr m.labels "instance" "unknown" ++ "#" ++
    toString m.timestamp ++ "#" ++ toString i

/-- Seven days, the retention `ttl` increment. -/
def sevenDays : ℕ := 24 * 60 * 60 * 7

/-- The item `_store_metrics_in_dynamodb` builds for the metric at batch
position `i`; `none` when the Decimal conversion of the value raises. -/
def mkMetricItem (m : Metric) (i : ℕ) (now : ℕ) : Option MetricItem :=
  match m.rawValue with
  | none => none
  | some v =>
    let job := getAttr m.labels "job" "unknown"
    some
      { cluster_id := getAttr m.labels "cluster.id" job,
        metric_identifier := metricIdentifier m i,
        metric_name := metricNameOf m,
        job := job,
        instanceLabel := getAttr m.labels "instance" "unknown",
        timestamp := m.timestamp,
        value := v,
        ttl := now + sevenDays,
        full_metric := m.labels }

structure LogItem where
  cluster_id : String
  timestamp : ℕ
  job : String
  instanceLabel : String
  severity : String
  body : String
  attributes : List (String × String)
  ttl : ℕ
deriving DecidableEq

structure TraceEventItem where
  name : String
  timestamp : ℕ
  attributes : List (String × String)
deriving DecidableEq

structure TraceItem where
  trace_id : String
  span_id : String
  parent_span_id : String
  service_name : String
  span_name : String
  span_kind : ℕ
  start_time_unix_nano : ℕ
  end_time_unix_nano : ℕ
  duration_nano : ℤ
  status_code : ℕ
  status_message : String
  attributes : List (String × String)
  events : List TraceEventItem
  ttl : ℕ
deriving DecidableEq

structure LogRecord where
  time_unix_nano : ℕ
  severity_text : String
  body : String
  attributes : List (String × String)
deriving DecidableEq

structure ScopeLog where
  log_records : List LogRecord
deriving DecidableEq

structure ResourceLog where
  resource_attributes : List (String × String)
  scope_logs : List ScopeLog
deriving DecidableEq

structure LogsReq where
  resource_logs : List ResourceLog
deriving DecidableEq

structure SpanEvent where
  name : String
  time_unix_nano : ℕ
  attributes : List (String × String)
deriving DecidableEq

structure SpanStatus where
  code : ℕ
  message : String
deriving DecidableEq

structure SpanProto where
  trace_id : List ℕ
  span_id : List ℕ
  parent_span_id : List ℕ
  name : String
  kind : ℕ
  start_time_unix_nano : ℕ
  end_time_unix_nano : ℕ
  status : SpanStatus
  attributes : List (String × String)
  events : List SpanEvent
deriving DecidableEq

structure ScopeSpans where
  spans : List SpanProto
deriving DecidableEq

structure ResourceSpans where
  resource_attributes : List (String × String)
  scope_spans : List ScopeSpans
deriving DecidableEq

structure TracesReq where
  resource_spans : List ResourceSpans
deriving DecidableEq

/-- The collaborators of the handler: base64 and gzip codecs, the three
protobuf parsers, the DynamoDB writes and scan, and the wall clock read by
`datetime.now()`.  Each fallible call returns `Except Unit`. -/
structure ExtDeps where
  b64decode : String → Except Unit (List ℕ)
  gunzip : List ℕ → Except Unit (List ℕ)
  parseMetricsReq : List ℕ → Except Unit MetricsReq
  parseLogsReq : List ℕ → Except Unit LogsReq
  parseTracesReq : List ℕ → Except Unit TracesReq
  putMetricItem : MetricItem → Except Unit Unit
  putLogItem : LogItem → Except Unit Unit
  putTraceItem : TraceItem → Except Unit Unit
  scanMetrics : Except Unit (List MetricItem)
  now : ℕ

/-- The observable side effects of one handler invocation: items actually
written to each table, the anomaly lists handed to the alert dispatcher, and
the number of table scans issued. -/
structure Effects where
  metricPuts : List MetricItem
  logPuts : List LogItem
  tracePuts : List TraceItem
  alertCalls : List (List Anomaly)
  scans : ℕ
deriving DecidableEq

def Effects.empty : Effects :=
  { metricPuts := [], logPuts := [], tracePuts := [], alertCalls := [], scans := 0 }

/-- The loop body of `_store_metrics_in_dynamodb` under its `try`: build the
item for position `i` (the Decimal conversion can raise) and put it; the
first exception aborts the loop and is caught by the surrounding `except`,
so the function returns normally whatever happens.  The result is the list
of items that were written. -/
def store_metrics_loop (ext : ExtDeps) : ℕ → List Metric → List MetricItem
  | _, [] => []
  | i, m :: rest =>
    match mkMetricItem m i ext.now with
    | none => []
    | some item =>
      match ext.putMetricItem item with
      | .error _ => []
      | .ok _ => item :: store_metrics_loop ext (i + 1) rest

/-- Model of `_store_metrics_in_dynamodb`: returns early on an empty batch, otherwise
runs the enumerate loop; every exception is caught and only logged. -/
def store_metrics_in_dynamodb (ext : ExtDeps) (metrics : List Metric) : List MetricItem :=
  if metrics.isEmpty then [] else store_metrics_loop ext 0 metrics

/-- The inner enumerate loop of `_parse_and_store_logs_in_dynamodb` for one
scope: the item for the record at enumerate index `i` gets sort key
`time_unix_nano + i`. -/
def scopeLogItems (cluster_id job instanceLabel : String) (now : ℕ) :
    ℕ → List LogRecord → List LogItem
  | _, [] => []
  | i, lr :: rest =>
    { cluster_id := cluster_id,
      timestamp := lr.time_unix_nano + i,
      job := job,
      instanceLabel := instanceLabel,
      severity := lr.severity_text,
      body := lr.body,
      attributes := dictOf lr.attributes,
      ttl := now + sevenDays } :: scopeLogItems cluster_id job instanceLabel now (i + 1) rest

/-- All log items `_parse_and_store_logs_in_dynamodb` builds for a request:
cluster, job and instance come from the resource attributes, and the
enumerate index restarts at 0 for every scope. -/
def logItemsOf (now : ℕ) (req : LogsReq) : List LogItem :=
  req.resource_logs.flatMap (fun rl =>
    let attributes := dictOf rl.resource_attributes
    let cluster_id := getAttr attributes "cluster.id"
      (getAttr attributes "service.name" "unknown_cluster")
    let job := getAttr attributes "service.name" "unknown_job"
    let instanceLabel := getAttr attributes "service.instance.id" "unknown_instance"
    rl.scope_logs.flatMap (fun sl =>
      scopeLogItems cluster_id job instanceLabel now 0 sl.log_records))

/-- The (partition key, sort key) pairs of the log items of a request. -/
def logKeysOf (now : ℕ) (req : LogsReq) : List (String × ℕ) :=
  (logItemsOf now req).map (fun it => (it.cluster_id, it.timestamp))

/-- Write loop shared by the log and trace writers: the first failed put
aborts the rest (the exception is caught by the surrounding `except`); the
written prefix remains written. -/
def putAll {α : Type} (put : α → Except Unit Unit) : List α → List α
  | [] => []
  | it :: rest =>
    match put it with
    | .error _ => []
    | .ok _ => it :: putAll put rest

def parse_and_store_logs_in_dynamodb (ext : ExtDeps) (req : LogsReq) : List LogItem :=
  putAll ext.putLogItem (logItemsOf ext.now req)

/-- Lowercase hex digit. -/
def hexDigit (n : ℕ) : Char := "0123456789abcdef".toList.getD n '0'

/-- Model of `bytes.hex()` applied to one byte. -/
def byteHex (b : ℕ) : String :=
  String.mk [hexDigit (b / 16 % 16), hexDigit (b % 16)]

/-- Model of `bytes.hex()`. -/
def hexOfBytes (bs : List ℕ) : String := String.join (bs.map byteHex)

/-- The item `_parse_and_store_traces_in_dynamodb` builds for one span. -/
def mkTraceItem (service_name : String) (now : ℕ) (span : SpanProto) : TraceItem :=
  { trace_id := hexOfBytes span.trace_id,
    span_id := hexOfBytes span.span_id,
    parent_span_id := if span.parent_span_id.isEmpty then "" else hexOfBytes span.parent_span_id,
    service_name := service_name,
    span_name := span.name,
    span_kind := span.kind,
    start_time_unix_nano := span.start_time_unix_nano,
    end_time_unix_nano := span.end_time_unix_nano,
    duration_nano := (span.end_time_unix_nano : ℤ) - (span.start_time_unix_nano : ℤ),
    status_code := span.status.code,
    status_message := span.status.message,
    attributes := dictOf span.attributes,
    events := span.events.map (fun ev =>
      { name := ev.name, timestamp := ev.time_unix_nano, attributes := dictOf ev.attributes }),
    ttl := now + sevenDays }

def traceItemsOf (now : ℕ) (req : TracesReq) : List TraceItem :=
  req.resource_spans.flatMap (fun rs =>
    let resource_attributes := dictOf rs.resource_attributes
    let service_name := getAttr resource_attributes "service.name" "unknown_service"
    rs.scope_spans.flatMap (fun ss => ss.spans.map (mkTraceItem service_name now)))

def parse_and_store_traces_in_dynamodb (ext : ExtDeps) (req : TracesReq) : List TraceItem :=
  putAll ext.putTraceItem (traceItemsOf ext.now req)

/-- The fields of the Lambda event the handler reads, with the defaulting of
`event.get(...)` already applied: absent `headers` is the empty list, absent
`rawPath`/`body` is the empty string, absent `isBase64Encoded` is `false`,
and `method` is `requestContext.http.method` (empty when absent). -/
structure Event where
  headers : List (String × String)
  rawPath : String
  body : String
  isBase64Encoded : Bool
  method : String
deriving DecidableEq

/-- An HTTP response.  `body` carries the `message` field of the JSON body
the source serializes (the JSON envelope is elided). -/
structure Response where
  statusCode : ℕ
  body : String
deriving DecidableEq

/-- The authentication check of the handler:
`not api_key_header or api_key_header != API_KEY`, where a missing header and
the empty string are both falsy. -/
def authFails (apiKey : String) (ev : Event) : Bool :=
  match lookupStr ev.headers "x-api-key" with
  | none => true
  | some s => s = "" || s != apiKey

/-- Body preprocessing of the handler: base64-decode when the envelope says
so (else encode the string), then gzip-decompress when the
`content-encoding` header is exactly `"gzip"`.  Either step can raise. -/
def bodyBytesOf (ext : ExtDeps) (ev : Event) : Except Unit (List ℕ) :=
  match (if ev.isBase64Encoded then ext.b64decode ev.body else Except.ok (encodeUtf8 ev.body)) with
  | .error e => .error e
  | .ok bs =>
    if lookupStr ev.headers "content-encoding" = some "gzip" then ext.gunzip bs
    else Except.ok bs

def forbiddenResponse : Response := { statusCode := 403, body := "Forbidden: Invalid API Key" }

def serverErrorResponse : Response := { statusCode := 500, body := "Internal Server Error" }

/-- The metrics branch of the handler after the empty-body check: parse,
store (exceptions there are swallowed), detect (an exception here escapes to
the outer `except` and yields 500), alert when anomalies were found. -/
def metricsBranch (ext : ExtDeps) (bs : List ℕ) : Response × Effects :=
  match ext.parseMetricsReq bs with
  | .error _ => (serverErrorResponse, Effects.empty)
  | .ok req =>
    let parsed := parse_otlp_metrics req
    let written := store_metrics_in_dynamodb ext parsed
    match detect_anomalies parsed (7/2) with
    | .error _ => (serverErrorResponse, { Effects.empty with metricPuts := written })
    | .ok anomalies =>
      ({ statusCode := 200, body := "Metrics received and processed" },
        { Effects.empty with
            metricPuts := written,
            alertCalls := if anomalies.isEmpty then [] else [anomalies] })

/-- The Lambda `handler`, parameterized by the configured API key and the
external collaborators; returns the response together with the observable
effects.  The default anomaly threshold 3.5 is `7/2`. -/
def handler (apiKey : String) (ext : ExtDeps) (ev : Event) : Response × Effects :=
  if authFails apiKey ev then (forbiddenResponse, Effects.empty)
  else
    match bodyBytesOf ext ev with
    | .error _ => (serverErrorResponse, Effects.empty)
    | .ok bs =>
      if strIn "/v1/metrics" ev.rawPath then
        if ev.body = "" then
          ({ statusCode := 400, body := "Bad Request: Empty body for metrics" }, Effects.empty)
        else metricsBranch ext bs
      else if strIn "/v1/logs" ev.rawPath then
        if ev.body = "" then
          ({ statusCode := 400, body := "Bad Request: Empty body for logs" }, Effects.empty)
        else
          match ext.parseLogsReq bs with
          | .error _ => (serverErrorResponse, Effects.empty)
          | .ok req =>
            ({ statusCode := 200, body := "Logs received and processed" },
              { Effects.empty with logPuts := parse_and_store_logs_in_dynamodb ext req })
      else if strIn "/v1/traces" ev.rawPath then
        if ev.body = "" then
          ({ statusCode := 400, body := "Bad Request: Empty body for traces" }, Effects.empty)
        else
          match ext.parseTracesReq bs with
          | .error _ => (serverErrorResponse, Effects.empty)
          | .ok req =>
            ({ statusCode := 200, body := "Traces received and processed" },
              { Effects.empty with tracePuts := parse_and_store_traces_in_dynamodb ext req })
      else if strIn "/data" ev.rawPath && ev.method == "GET" then
        match ext.scanMetrics with
        | .ok _ =>
          ({ statusCode := 200, body := "Data retrieved successfully" },
            { Effects.empty with scans := 1 })
        | .error _ =>
          ({ statusCode := 500, body := "Internal Server Error during data retrieval" },
            { Effects.empty with scans := 1 })
      else ({ statusCode := 404, body := "Not Found" }, Effects.empty)

/-- A metric sample with the standard base labels, for concrete scenarios. -/
def mkSample (name inst : String) (ts v : ℚ) : Metric :=
  { labels := [("__name__", name), ("job", "job1"), ("instance", inst)],
    timestamp := ts, rawValue := some v }

/-- The scenario batch of the spec: samples `[10,11,9,10,200]` for
`cpu_pct`. -/
def c9batch : List Metric :=
  [mkSample "cpu_pct" "a" 1 10, mkSample "cpu_pct" "a" 2 11, mkSample "cpu_pct" "a" 3 9,
   mkSample "cpu_pct" "a" 4 10, mkSample "cpu_pct" "a" 5 200]

/-- A sample whose value string cannot be converted to a number. -/
def badSample : Metric :=
  { labels := [("__name__", "bad_metric"), ("job", "job1"), ("instance", "a")],
    timestamp := 1, rawValue := none }

/-- A batch with a malformed group followed by a healthy group with an
obvious outlier. -/
def c4batch : List Metric := badSample :: c9batch

/-- Three extreme samples of a counter metric. -/
def c7batch : List Metric :=
  [mkSample "requests_total" "a" 1 1, mkSample "requests_total" "a" 2 1000000,
   mkSample "requests_total" "a" 3 5]

/-- A two-sample group with wildly different values. -/
def c8batch : List Metric := [mkSample "m" "a" 1 1, mkSample "m" "a" 2 100]

/-- The number of data points a metric contributes: only gauges and sums
count. -/
def gaugeSumCountOf (mp : MetricProto) : ℕ :=
  match mp.data with
  | .gauge dps => dps.length
  | .sum dps => dps.length
  | _ => 0

/-- The gauge and sum data points of a whole request. -/
def gaugeSumPointCount (req : MetricsReq) : ℕ :=
  (req.resource_metrics.map (fun rm =>
    (rm.scope_metrics.map (fun sm =>
      (sm.metrics.map gaugeSumCountOf).sum)).sum)).sum

/-- A log batch with two records in one scope whose nanosecond timestamps
are 5 and 4. -/
def c5req : LogsReq :=
  { resource_logs := [
      { resource_attributes := [("cluster.id", "c")],
        scope_logs := [
          { log_records := [
              { time_unix_nano := 5, severity_text := "INFO", body := "b1", attributes := [] },
              { time_unix_nano := 4, severity_text := "INFO", body := "b2", attributes := [] } ] } ] } ] }

/-- Two records of one scope sharing the nanosecond timestamp 7. -/
def c5goodRecords : List LogRecord :=
  [{ time_unix_nano := 7, severity_text := "INFO", body := "b1", attributes := [] },
   { time_unix_nano := 7, severity_text := "WARN", body := "b2", attributes := [] }]

/-- A one-gauge OTLP request used by the handler scenarios. -/
def c3req : MetricsReq :=
  { resource_metrics := [
      { resource_attributes := [("service.name", "svc"), ("service.instance.id", "i1")],
        scope_metrics := [
          { metrics := [
              { name := "cpu_pct",
                data := MetricData.gauge [
                  { attributes := [], time_unix_nano := 5000000000,
                    value := PointValue.asDouble 10 } ] } ] } ] } ] }

/-- Concrete collaborators: base64 of the empty string is empty, gzip
decompression of the empty byte string raises (as `gzip.decompress` does),
the metrics parser accepts everything as `c3req`, and every store write
fails. -/
def extFailStore : ExtDeps :=
  { b64decode := fun _ => Except.ok [],
    gunzip := fun bs => if bs.isEmpty then Except.error () else Except.ok bs,
    parseMetricsReq := fun _ => Except.ok c3req,
    parseLogsReq := fun _ => Except.error (),
    parseTracesReq := fun _ => Except.error (),
    putMetricItem := fun _ => Except.error (),
    putLogItem := fun _ => Except.error (),
    putTraceItem := fun _ => Except.error (),
    scanMetrics := Except.ok [],
    now := 0 }

/-- A valid metrics ingestion event with the right api key. -/
def ev3 : Event :=
  { headers := [("x-api-key", "k")], rawPath := "/v1/metrics", body := "x",
    isBase64Encoded := false, method := "POST" }

/-- An event with an empty body and a gzip content-encoding header. -/
def evGz : Event :=
  { headers := [("x-api-key", "k"), ("content-encoding", "gzip")], rawPath := "/v1/metrics",
    body := "", isBase64Encoded := false, method := "POST" }

/-- An event with no headers at all. -/
def ev403 : Event :=
  { headers := [], rawPath := "/v1/metrics", body := "x", isBase64Encoded := false,
    method := "POST" }

/-- An empty-body logs event (base64-marked) with the right api key and no
content-encoding header. -/
def evLogsEmpty : Event :=
  { headers := [("x-api-key", "k")], rawPath := "/v1/logs", body := "",
    isBase64Encoded := true, method := "POST" }

/-! ## Theorems -/

theorem expectValues_ok_eq : ∀ {g : List Metric} {vs : List ℚ},
    expectValues g = Except.ok vs → vs = valuesD g := by
  intro g
  induction g with
  | nil =>
    intro vs h
    simp only [expectValues] at h
    injection h with h
    simp [valuesD, ← h]
  | cons m rest ih =>
    intro vs h
    simp only [expectValues] at h
    cases hm : floatOfValue m with
    | error e => rw [hm] at h; cases h
    | ok v =>
      rw [hm] at h
      cases hr : expectValues rest with
      | error e => rw [hr] at h; cases h
      | ok vs0 =>
        rw [hr] at h
        injection h with h
        have hv : m.rawValue = some v := by
          unfold floatOfValue at hm
          cases hmv : m.rawValue with
          | none => rw [hmv] at hm; cases hm
          | some w => rw [hmv] at hm; injection hm with hw; rw [hw]
        rw [← h, valuesD, List.map_cons, hv]
        simp [valuesD, ih hr]

theorem expectValues_error_of_mem : ∀ {g : List Metric} {m : Metric},
    m ∈ g → m.rawValue = none → expectValues g = Except.error () := by
  intro g
  induction g with
  | nil => intro m h; simp at h
  | cons m0 rest ih =>
    intro m h hnone
    rcases List.mem_cons.mp h with rfl | h2
    · simp only [expectValues, floatOfValue, hnone]
    · simp only [expectValues]
      cases hm0 : floatOfValue m0 with
      | error e => cases e; rfl
      | ok v => rw [ih h2 hnone]

theorem flagLoop_name : ∀ {g : List Metric} {a : Anomaly} {name : String} {med mad th : ℚ},
    a ∈ flagLoop name med mad th g → a.metric_name = name := by
  intro g
  induction g with
  | nil => intro a name med mad th h; simp [flagLoop] at h
  | cons m rest ih =>
    intro a name med mad th h
    simp only [flagLoop] at h
    split at h
    · rcases List.mem_cons.mp h with rfl | h2
      · rfl
      · exact ih h2
    · exact ih h

theorem detectGroup_name {name : String} {g : List Metric} {th : ℚ} {as : List Anomaly}
    (hdg : detectGroup name g th = Except.ok as) {a : Anomaly} (ha : a ∈ as) :
    a.metric_name = name := by
  unfold detectGroup at hdg
  split at hdg
  · injection hdg with h; rw [← h] at ha; simp at ha
  · split at hdg
    · cases hdg
    · split at hdg
      · injection hdg with h; rw [← h] at ha; simp at ha
      · split at hdg
        · injection hdg with h; rw [← h] at ha; simp at ha
        · injection hdg with h; rw [← h] at ha; exact flagLoop_name ha

theorem detectGroup_total {name : String} {g : List Metric} {th : ℚ}
    (htot : pyEndsWith name "_total" = true) :
    detectGroup name g th = Except.ok [] := by
  unfold detectGroup
  rw [if_pos htot]

theorem detectGroup_small_or_flat {name : String} {g : List Metric} {th : ℚ}
    {as : List Anomaly} (hdg : detectGroup name g th = Except.ok as)
    (hcond : g.length ≤ 2 ∨ groupMad g = 0) : as = [] := by
  unfold detectGroup at hdg
  split at hdg
  · injection hdg with h; exact h.symm
  · split at hdg
    · cases hdg
    · rename_i values hEV
      have hv : values = valuesD g := expectValues_ok_eq hEV
      split at hdg
      · injection hdg with h; exact h.symm
      · split at hdg
        · injection hdg with h; exact h.symm
        · rename_i hlen hmad
          exfalso
          rcases hcond with hsmall | hflat
          · apply hlen
            rw [hv, valuesD, List.length_map]
            omega
          · apply hmad
            rw [hv]
            exact hflat

theorem detectGroups_mem {th : ℚ} :
    ∀ {gs : List (String × List Metric)} {res : List Anomaly} {a : Anomaly},
      detectGroups th gs = Except.ok res → a ∈ res →
      ∃ n g as, (n, g) ∈ gs ∧ detectGroup n g th = Except.ok as ∧ a ∈ as := by
  intro gs
  induction gs with
  | nil =>
    intro res a h ha
    simp only [detectGroups] at h
    injection h with h
    rw [← h] at ha
    simp at ha
  | cons ng rest ih =>
    intro res a h ha
    obtain ⟨n, g⟩ := ng
    simp only [detectGroups] at h
    split at h
    · cases h
    · rename_i as hdg
      split at h
      · cases h
      · rename_i more hrest
        injection h with h
        rw [← h] at ha
        rcases List.mem_append.mp ha with hin | hin
        · exact ⟨n, g, as, List.mem_cons_self _ _, hdg, hin⟩
        · obtain ⟨n0, g0, as0, hmem, hdg0, hin0⟩ := ih hrest hin
          exact ⟨n0, g0, as0, List.mem_cons_of_mem _ hmem, hdg0, hin0⟩

theorem detectGroups_ok_of_mem {th : ℚ} :
    ∀ {gs : List (String × List Metric)} {res : List Anomaly} {n : String}
      {g : List Metric}, (n, g) ∈ gs → detectGroups th gs = Except.ok res →
      ∃ as, detectGroup n g th = Except.ok as := by
  intro gs
  induction gs with
  | nil => intro res n g hmem; simp at hmem
  | cons ng rest ih =>
    intro res n g hmem h
    obtain ⟨n0, g0⟩ := ng
    simp only [detectGroups] at h
    split at h
    · cases h
    · rename_i as hdg
      split at h
      · cases h
      · rename_i more hrest
        rcases List.mem_cons.mp hmem with hEq | hmem2
        · injection hEq with h1 h2
          rw [← h1, ← h2] at hdg
          exact ⟨as, hdg⟩
        · exact ih hmem2 hrest

theorem mem_foldl_firstOcc :
    ∀ (l : List String) (acc : List String) (x : String),
      x ∈ acc ∨ x ∈ l →
      x ∈ l.foldl (fun acc n => if n ∈ acc then acc else acc ++ [n]) acc := by
  intro l
  induction l with
  | nil =>
    intro acc x h
    rcases h with h | h
    · exact h
    · simp at h
  | cons y rest ih =>
    intro acc x h
    simp only [List.foldl_cons]
    apply ih
    rcases h with hacc | hl
    · left
      by_cases hy : y ∈ acc
      · rw [if_pos hy]; exact hacc
      · rw [if_neg hy]; exact List.mem_append_left _ hacc
    · rcases List.mem_cons.mp hl with rfl | hrest
      · left
        by_cases hy : x ∈ acc
        · rw [if_pos hy]; exact hy
        · rw [if_neg hy]
          exact List.mem_append_right _ (List.mem_singleton.mpr rfl)
      · right; exact hrest

theorem mem_groupsByName {m : Metric} {metrics : List Metric} (hm : m ∈ metrics) :
    (metricNameOf m, groupOf (metricNameOf m) metrics) ∈ groupsByName metrics := by
  unfold groupsByName firstOccurrences
  apply List.mem_map_of_mem
  apply mem_foldl_firstOcc
  right
  exact List.mem_map_of_mem _ hm

theorem groupsByName_eq {n : String} {g : List Metric} {metrics : List Metric}
    (h : (n, g) ∈ groupsByName metrics) : g = groupOf n metrics := by
  unfold groupsByName at h
  obtain ⟨n0, _, hEq⟩ := List.mem_map.mp h
  injection hEq with h1 h2
  rw [← h1]
  exact h2.symm

/-- Claim C7: in every batch, a group whose metric name ends with `_total`
produces zero anomalies whatever its values are: no anomaly returned by
`detect_anomalies` carries a `_total` name. -/
theorem detector_never_flags_total_counters (metrics : List Metric) (threshold : ℚ)
    (res : List Anomaly) (hok : detect_anomalies metrics threshold = Except.ok res) :
    res.all (fun a => !(pyEndsWith a.metric_name "_total")) = true := by
  rw [List.all_eq_true]
  intro a ha
  show (!(pyEndsWith a.metric_name "_total")) = true
  have hok2 : detectGroups threshold (groupsByName metrics) = Except.ok res := hok
  obtain ⟨n, g, as, hmem, hdg, hain⟩ := detectGroups_mem hok2 ha
  have hname : a.metric_name = n := detectGroup_name hdg hain
  rw [Bool.not_eq_true']
  cases htot : pyEndsWith a.metric_name "_total" with
  | false => rfl
  | true =>
    exfalso
    rw [hname] at htot
    rw [detectGroup_total htot] at hdg
    injection hdg with h
    rw [← h] at hain
    simp at hain

/-- Witness for C7 at the concrete counter batch `c7batch`. -/
theorem detector_never_flags_total_counters_witness :
    (([] : List Anomaly).all (fun a => !(pyEndsWith a.metric_name "_total"))) = true :=
  detector_never_flags_total_counters c7batch (7/2) [] (by decide)

/-- Claim C8: a group of 2 or fewer samples, or a group whose median
absolute deviation is 0, contributes no anomaly: no returned anomaly
carries the name of such a group. -/
theorem detector_silent_on_small_or_flat_groups (metrics : List Metric) (threshold : ℚ)
    (n : String) (res : List Anomaly)
    (hok : detect_anomalies metrics threshold = Except.ok res)
    (hcond : (groupOf n metrics).length ≤ 2 ∨ groupMad (groupOf n metrics) = 0) :
    res.all (fun a => a.metric_name != n) = true := by
  rw [List.all_eq_true]
  intro a ha
  show (a.metric_name != n) = true
  rw [bne_iff_ne]
  intro hEq
  have hok2 : detectGroups threshold (groupsByName metrics) = Except.ok res := hok
  obtain ⟨n0, g, as, hmem, hdg, hain⟩ := detectGroups_mem hok2 ha
  have hname : a.metric_name = n0 := detectGroup_name hdg hain
  have hn : n0 = n := by rw [← hname, hEq]
  rw [hn] at hdg hmem
  have hg : g = groupOf n metrics := groupsByName_eq hmem
  rw [hg] at hdg
  have hempty : as = [] := detectGroup_small_or_flat hdg hcond
  rw [hempty] at hain
  simp at hain

/-- Witness for C8 at the two-sample group `c8batch`. -/
theorem detector_silent_on_small_or_flat_groups_witness :
    (([] : List Anomaly).all (fun a => a.metric_name != "m")) = true :=
  detector_silent_on_small_or_flat_groups c8batch (7/2) "m" [] (by decide)
    (Or.inl (by decide))

/-- Helper for C4: a group holding a sample whose value does not convert
makes the whole group evaluation raise, provided the group is not skipped as
a counter. -/
theorem detectGroup_error_of_malformed {name : String} {g : List Metric} {th : ℚ}
    {m : Metric} (hname : pyEndsWith name "_total" = false) (hmem : m ∈ g)
    (hval : m.rawValue = none) : detectGroup name g th = Except.error () := by
  unfold detectGroup
  rw [hname, if_neg Bool.false_ne_true, expectValues_error_of_mem hmem hval]

/-- Claim C4 (amended): a numeric failure while evaluating one metric group
is not confined to that group: the exception propagates out of
`detect_anomalies`, so no anomalies are returned for any group of the
batch. -/
theorem malformed_value_aborts_whole_detection (metrics : List Metric) (threshold : ℚ)
    (m : Metric) (hm : m ∈ metrics)
    (hname : pyEndsWith (metricNameOf m) "_total" = false)
    (hval : m.rawValue = none) :
    detect_anomalies metrics threshold = Except.error () := by
  cases hres : detect_anomalies metrics threshold with
  | error e => cases e; rfl
  | ok res =>
    exfalso
    have hok2 : detectGroups threshold (groupsByName metrics) = Except.ok res := hres
    obtain ⟨as, hdg⟩ := detectGroups_ok_of_mem (mem_groupsByName hm) hok2
    have hmem2 : m ∈ groupOf (metricNameOf m) metrics := by
      unfold groupOf
      exact List.mem_filter.mpr ⟨hm, beq_self_eq_true _⟩
    rw [detectGroup_error_of_malformed hname hmem2 hval] at hdg
    cases hdg

/-- Witness for C4 at the concrete batch `c4batch`. -/
theorem malformed_value_aborts_whole_detection_witness :
    detect_anomalies c4batch (7/2) = Except.error () :=
  malformed_value_aborts_whole_detection c4batch (7/2) badSample (by decide)
    (by decide) (by decide)

/-- Counterexample for C4 as stated: `c4batch` contains a malformed group
(`bad_metric`) and a healthy group (`cpu_pct`) whose lone outlier 200 would
be flagged when the batch holds only that group; with the malformed group
present, the whole detection raises instead and the `cpu_pct` anomaly is not
returned. -/
theorem malformed_group_suppresses_other_groups :
    detect_anomalies c4batch (7/2) = Except.error () ∧
    (detect_anomalies c9batch (7/2)).map (fun l => l.map Anomaly.value) =
      Except.ok [200] := by
  constructor
  · decide
  · norm_num [c9batch, mkSample, detect_anomalies, detectGroups, detectGroup, groupsByName,
      firstOccurrences, groupOf, metricNameOf, getAttr, lookupStr, pyEndsWith, charsSuffix,
      expectValues, floatOfValue, median, sortRat, insertSorted, pyAbs, madOf, zScore,
      flagLoop, Except.map]
    all_goals decide

/-- Claim C9: on samples `[10,11,9,10,200]` for `cpu_pct` the detector
computes median 10 and MAD 1, and with the default threshold 3.5 flags
exactly the sample with value 200. -/
theorem detector_flags_single_outlier_scenario :
    median (valuesD c9batch) = 10 ∧ groupMad c9batch = 1 ∧
    (detect_anomalies c9batch (7/2)).map (fun l => l.map Anomaly.value) =
      Except.ok [200] := by
  refine ⟨?_, ?_, ?_⟩
  · norm_num [c9batch, mkSample, valuesD, median, sortRat, insertSorted]
  · norm_num [c9batch, mkSample, valuesD, groupMad, madOf, median, sortRat, insertSorted,
      pyAbs]
  · norm_num [c9batch, mkSample, detect_anomalies, detectGroups, detectGroup, groupsByName,
      firstOccurrences, groupOf, metricNameOf, getAttr, lookupStr, pyEndsWith, charsSuffix,
      expectValues, floatOfValue, median, sortRat, insertSorted, pyAbs, madOf, zScore,
      flagLoop, Except.map]
    all_goals decide

theorem dataPointsOf_length (mp : MetricProto) :
    (dataPointsOf mp).length = gaugeSumCountOf mp := by
  unfold dataPointsOf gaugeSumCountOf
  cases mp.data <;> rfl

/-- Claim C10: decoding an OTLP metrics request converts exactly the data
points of gauge and sum metrics; a metric carrying any other data type
contributes zero canonical samples (`parse_otlp_metrics` is total, so no
error is raised either). -/
theorem parse_otlp_metrics_counts_gauge_sum_points (req : MetricsReq) :
    (parse_otlp_metrics req).length = gaugeSumPointCount req := by
  unfold parse_otlp_metrics gaugeSumPointCount
  simp [List.length_flatMap, List.map_map, Function.comp_def, dataPointsOf_length]

/-- Claim C1 counterexample: two records that agree on every label, the
metric name and the timestamp receive different storage identifiers when
they sit at positions 0 and 1 of the batch — the identifier embeds the batch
index and no label digest, so it is not position-independent. -/
theorem metric_identifier_depends_on_position :
    metricIdentifier (mkSample "m" "a" 1 5) 0 ≠ metricIdentifier (mkSample "m" "a" 1 5) 1 := by
  decide

/-- Claim C1 (amended): the identifier is
`f"{metric_name}#{instance}#{timestamp}#{i}"`, so it is determined by the
metric name, the instance label, the timestamp and the batch position: two
records agreeing on those four receive the same identifier. -/
theorem metric_identifier_deterministic (m1 m2 : Metric) (i : ℕ)
    (hn : metricNameOf m1 = metricNameOf m2)
    (hi : getAttr m1.labels "instance" "unknown" = getAttr m2.labels "instance" "unknown")
    (ht : m1.timestamp = m2.timestamp) :
    metricIdentifier m1 i = metricIdentifier m2 i := by
  unfold metricIdentifier
  rw [hn, hi, ht]

/-- Witness for C1: two records differing in value agree on identifier
inputs and receive the same identifier. -/
theorem metric_identifier_deterministic_witness :
    metricIdentifier (mkSample "m" "a" 1 5) 2 = metricIdentifier (mkSample "m" "a" 1 7) 2 :=
  metric_identifier_deterministic (mkSample "m" "a" 1 5) (mkSample "m" "a" 1 7) 2
    (by decide) (by decide) (by decide)

/-- Claim C5 counterexample: the records with timestamps 5 and 4 receive
sort keys 5+0 and 4+1, so both map to the key `("c", 5)`: the keys of one
decoded batch are not pairwise distinct. -/
theorem log_keys_collide_within_scope :
    logKeysOf 0 c5req = [("c", 5), ("c", 5)] ∧
    ¬ List.Pairwise (fun p q => p ≠ q) (logKeysOf 0 c5req) := by
  exact ⟨by decide, by decide⟩

theorem scopeLogItems_timestamp_bound (c j inst : String) (now t : ℕ) :
    ∀ (records : List LogRecord) (i : ℕ) (it : LogItem),
      it ∈ scopeLogItems c j inst now i records →
      (∀ lr ∈ records, lr.time_unix_nano = t) →
      ∃ jx, i ≤ jx ∧ it.timestamp = t + jx := by
  intro records
  induction records with
  | nil => intro i it h; simp [scopeLogItems] at h
  | cons lr rest ih =>
    intro i it h hall
    rcases List.mem_cons.mp h with rfl | h2
    · refine ⟨i, le_refl i, ?_⟩
      show lr.time_unix_nano + i = t + i
      rw [hall lr (List.mem_cons_self _ _)]
    · obtain ⟨jx, hle, hts⟩ := ih (i + 1) it h2
        (fun lr0 hm => hall lr0 (List.mem_cons_of_mem _ hm))
      exact ⟨jx, by omega, hts⟩

/-- Claim C5 (amended): within a single scope list whose records all carry
the same nanosecond timestamp, the enumerate index makes the (partition,
sort) keys pairwise distinct; distinctness does not hold across scopes or
for unequal timestamps (see the counterexample). -/
theorem log_keys_distinct_for_constant_timestamp (c j inst : String) (now t : ℕ) :
    ∀ (records : List LogRecord) (i : ℕ),
      (∀ lr ∈ records, lr.time_unix_nano = t) →
      List.Pairwise (fun p q => p ≠ q)
        ((scopeLogItems c j inst now i records).map (fun it => (it.cluster_id, it.timestamp))) := by
  intro records
  induction records with
  | nil => intro i hall; simp [scopeLogItems]
  | cons lr rest ih =>
    intro i hall
    simp only [scopeLogItems, List.map_cons]
    rw [List.pairwise_cons]
    constructor
    · intro q hq
      obtain ⟨it, hit, hq2⟩ := List.mem_map.mp hq
      obtain ⟨jx, hle, hts⟩ := scopeLogItems_timestamp_bound c j inst now t rest (i + 1) it hit
        (fun lr0 hm => hall lr0 (List.mem_cons_of_mem _ hm))
      intro hEq
      rw [← hq2] at hEq
      have h2 := congrArg Prod.snd hEq
      simp only at h2
      have h3 : lr.time_unix_nano + i = it.timestamp := h2
      rw [hts, hall lr (List.mem_cons_self _ _)] at h3
      omega
    · exact ih (i + 1) (fun lr0 hm => hall lr0 (List.mem_cons_of_mem _ hm))

/-- Witness for C5 at a concrete scope with constant timestamps. -/
theorem log_keys_distinct_for_constant_timestamp_witness :
    List.Pairwise (fun p q => p ≠ q)
      ((scopeLogItems "c" "j" "i1" 0 0 c5goodRecords).map (fun it => (it.cluster_id, it.timestamp))) :=
  log_keys_distinct_for_constant_timestamp "c" "j" "i1" 0 7 c5goodRecords 0 (by decide)

/-- Claim C6: a missing or mismatching `x-api-key` makes the handler return
403 with no effects at all: nothing is parsed, written, scanned, and no
alert is dispatched. -/
theorem auth_failure_rejects_without_effects (apiKey : String) (ext : ExtDeps) (ev : Event)
    (h : ∀ s, lookupStr ev.headers "x-api-key" = some s → s ≠ apiKey) :
    handler apiKey ext ev = (forbiddenResponse, Effects.empty) := by
  have hA : authFails apiKey ev = true := by
    unfold authFails
    cases hl : lookupStr ev.headers "x-api-key" with
    | none => rfl
    | some s =>
      have hbne : (s != apiKey) = true := bne_iff_ne.mpr (h s hl)
      simp [hbne]
  unfold handler
  rw [hA]
  simp

/-- Witness for C6 at an event with no headers. -/
theorem auth_failure_rejects_without_effects_witness :
    handler "k" extFailStore ev403 = (forbiddenResponse, Effects.empty) :=
  auth_failure_rejects_without_effects "k" extFailStore ev403
    (fun s hs => by simp [ev403, lookupStr] at hs)

/-- Claim C3 counterexample: with a store whose every write fails, a valid
one-sample metrics ingestion still returns 200 — not 500 — and zero items
landed. -/
theorem total_storage_failure_returns_200 :
    (handler "k" extFailStore ev3).1.statusCode = 200 ∧
    (handler "k" extFailStore ev3).2.metricPuts = [] ∧
    (parse_otlp_metrics c3req).length = 1 := by
  exact ⟨by decide, by decide, by decide⟩

/-- Claim C3 (amended): the metrics response does not depend on storage
outcomes: when authentication, decoding, parsing and detection succeed,
ingestion returns 200 even if every write failed (`_store_metrics_in_dynamodb`
catches all exceptions and only logs them). -/
theorem response_ignores_storage_failures (apiKey : String) (ext : ExtDeps) (ev : Event)
    (bs : List ℕ) (req : MetricsReq) (as : List Anomaly)
    (hauth : lookupStr ev.headers "x-api-key" = some apiKey) (hne : apiKey ≠ "")
    (hpath : strIn "/v1/metrics" ev.rawPath = true) (hbody : ev.body ≠ "")
    (hbytes : bodyBytesOf ext ev = Except.ok bs)
    (hparse : ext.parseMetricsReq bs = Except.ok req)
    (hdetect : detect_anomalies (parse_otlp_metrics req) (7/2) = Except.ok as) :
    (handler apiKey ext ev).1 =
      { statusCode := 200, body := "Metrics received and processed" } := by
  have hA : authFails apiKey ev = false := by
    unfold authFails
    rw [hauth]
    simp [hne]
  unfold handler metricsBranch
  simp [hA, hbytes, hpath, hbody, hparse, hdetect]

/-- Witness for C3 at the failing store. -/
theorem response_ignores_storage_failures_witness :
    (handler "k" extFailStore ev3).1 =
      { statusCode := 200, body := "Metrics received and processed" } :=
  response_ignores_storage_failures "k" extFailStore ev3 (encodeUtf8 "x") c3req []
    (by decide) (by decide) (by decide) (by decide) rfl rfl (by decide)

/-- Claim C2 counterexample: an empty body together with a
`content-encoding: gzip` header reaches gzip decompression before the
empty-body check; decompressing the empty byte string raises, and the
handler returns 500, not 400. -/
theorem empty_gzip_body_yields_500 :
    (handler "k" extFailStore evGz).1.statusCode = 500 := by decide

/-- Claim C2 (amended): an empty body on an ingest path yields 400 provided
the request carries a valid api key and no gzip content-encoding header (the
base64 marker is fine); the 400 is returned before any parse and with no
effects.  With a gzip header, decompression of the empty body raises first
and the handler returns 500. -/
theorem empty_body_400_without_gzip (apiKey : String) (ext : ExtDeps) (ev : Event)
    (hauth : lookupStr ev.headers "x-api-key" = some apiKey) (hne : apiKey ≠ "")
    (hb64 : ext.b64decode "" = Except.ok [])
    (hgz : lookupStr ev.headers "content-encoding" ≠ some "gzip")
    (hbody : ev.body = "")
    (hpath : strIn "/v1/metrics" ev.rawPath = true ∨ strIn "/v1/logs" ev.rawPath = true ∨
      strIn "/v1/traces" ev.rawPath = true) :
    (handler apiKey ext ev).1.statusCode = 400 ∧ (handler apiKey ext ev).2 = Effects.empty := by
  have hA : authFails apiKey ev = false := by
    unfold authFails
    rw [hauth]
    simp [hne]
  have henc : encodeUtf8 "" = ([] : List ℕ) := rfl
  have hbytes : bodyBytesOf ext ev = Except.ok [] := by
    unfold bodyBytesOf
    rw [hbody]
    cases hb : ev.isBase64Encoded with
    | false => simp [hb, henc, hgz]
    | true => simp [hb, hb64, hgz]
  rcases hpath with hp | hp | hp
  · have hH : handler apiKey ext ev =
        ({ statusCode := 400, body := "Bad Request: Empty body for metrics" }, Effects.empty) := by
      unfold handler
      simp [hA, hbytes, hp, hbody]
    rw [hH]
    exact ⟨rfl, rfl⟩
  · by_cases hm : strIn "/v1/metrics" ev.rawPath = true
    · have hH : handler apiKey ext ev =
          ({ statusCode := 400, body := "Bad Request: Empty body for metrics" }, Effects.empty) := by
        unfold handler
        simp [hA, hbytes, hm, hbody]
      rw [hH]
      exact ⟨rfl, rfl⟩
    · have hm2 : strIn "/v1/metrics" ev.rawPath = false := by
        cases hx : strIn "/v1/metrics" ev.rawPath
        · rfl
        · exact absurd hx hm
      have hH : handler apiKey ext ev =
          ({ statusCode := 400, body := "Bad Request: Empty body for logs" }, Effects.empty) := by
        unfold handler
        simp [hA, hbytes, hm2, hp, hbody]
      rw [hH]
      exact ⟨rfl, rfl⟩
  · by_cases hm : strIn "/v1/metrics" ev.rawPath = true
    · have hH : handler apiKey ext ev =
          ({ statusCode := 400, body := "Bad Request: Empty body for metrics" }, Effects.empty) := by
        unfold handler
        simp [hA, hbytes, hm, hbody]
      rw [hH]
      exact ⟨rfl, rfl⟩
    · have hm2 : strIn "/v1/metrics" ev.rawPath = false := by
        cases hx : strIn "/v1/metrics" ev.rawPath
        · rfl
        · exact absurd hx hm
      by_cases hl : strIn "/v1/logs" ev.rawPath = true
      · have hH : handler apiKey ext ev =
            ({ statusCode := 400, body := "Bad Request: Empty body for logs" }, Effects.empty) := by
          unfold handler
          simp [hA, hbytes, hm2, hl, hbody]
        rw [hH]
        exact ⟨rfl, rfl⟩
      · have hl2 : strIn "/v1/logs" ev.rawPath = false := by
          cases hx : strIn "/v1/logs" ev.rawPath
          · rfl
          · exact absurd hx hl
        have hH : handler apiKey ext ev =
            ({ statusCode := 400, body := "Bad Request: Empty body for traces" }, Effects.empty) := by
          unfold handler
          simp [hA, hbytes, hm2, hl2, hp, hbody]
        rw [hH]
        exact ⟨rfl, rfl⟩

/-- Witness for C2 at a base64-marked empty logs body. -/
theorem empty_body_400_without_gzip_witness :
    (handler "k" extFailStore evLogsEmpty).1.statusCode = 400 ∧
    (handler "k" extFailStore evLogsEmpty).2 = Effects.empty :=
  empty_body_400_without_gzip "k" extFailStore evLogsEmpty (by decide) (by decide) rfl
    (by decide) rfl (Or.inr (Or.inl (by decide)))
